import Mathlib

/-!
Shallow embedding of the refund-administration layer in `payment/admin.py`
(`RefundRequestAdmin` and `RefundItemAdmin`) and proofs about its bulk
actions.

The external helpers declared in `payment/models` (`restock_refunded_items`,
`process_rewards_refund`, `restore_used_rewards`) are not part of the given
sources; the actions receive them as oracles: a result of type
`Option String` models a call that either succeeds (`none`) or raises an
exception carrying a message (`some e`), and a `Bool` result models the
boolean return value of `restore_used_rewards`.  `timezone.now()` is an
explicit `now : Nat` parameter, and `self.message_user` accumulates a list of
structured messages.  Each action receives the administrator-selected
queryset as a `List RefundRequest` and returns the updated rows together with
the helper invocations it performed (in order, with the argument each call
received) and the emitted messages.
-/

/-- A refund line item (`RefundItem`), restricted to the fields the admin
actions read or write. -/
structure RefundItem where
  condition_acceptable : Bool
  restocked : Bool
  deriving DecidableEq

/-- A refund request row (`RefundRequest`), restricted to the fields the admin
actions read or write.  `user = none` models a guest order (NULL user);
timestamps are `Option Nat` with `none` for NULL. -/
structure RefundRequest where
  id : Nat
  status : String
  user : Option Nat
  rewards_used : Int
  product_received_at : Option Nat
  refund_completed_at : Option Nat
  rejection_reason : Option String
  items : List RefundItem
  deriving DecidableEq

/-- One component of the summary message built by `restore_rewards_goodwill`
(`messages_list` in the source). -/
inductive MsgPart where
  | restored (n : Nat) (total : Int)
  | alreadyRestored (n : Nat)
  | noRewards (n : Nat)
  | guests (n : Nat)
  deriving DecidableEq

/-- Operator-facing messages produced through `self.message_user`, one
constructor per distinct message site in the source. -/
inductive Msg where
  | restockError (refundId : Nat) (err : String)
  | markReceivedSuccess (updated : Nat)
  | rewardsError (refundId : Nat) (err : String)
  | completeSuccess (updated : Nat)
  | rejectWarning (updated : Nat)
  | restoreSuccess (parts : List MsgPart)
  | restoreWarning (parts : List MsgPart)
  deriving DecidableEq

/-- Result of one bulk action: the selected rows after the action, the
arguments of every external-helper invocation (in call order), the emitted
messages, and the `updated` counter the action reports. -/
structure ActionResult where
  refunds : List RefundRequest
  restockCalls : List RefundRequest
  rewardsCalls : List RefundRequest
  restoreCalls : List RefundRequest
  msgs : List Msg
  updated : Nat
  deriving DecidableEq

/-- `refund.items.all().update(condition_acceptable=True)` applied to one
item. -/
def acceptItem (it : RefundItem) : RefundItem :=
  { it with condition_acceptable := true }

/-- The per-request mutation `mark_product_received` performs on a
`PENDING_RETURN` row: status, `product_received_at`, and the bulk item
update, all before `restock_refunded_items` is invoked. -/
def markReceivedOne (now : Nat) (r : RefundRequest) : RefundRequest :=
  { r with
    status := "PRODUCT_RECEIVED"
    product_received_at := some now
    items := r.items.map acceptItem }

/-- What `mark_product_received` does to one selected row: rows outside the
`queryset.filter(status='PENDING_RETURN')` filter are untouched. -/
def markStep (now : Nat) (r : RefundRequest) : RefundRequest :=
  if r.status = "PENDING_RETURN" then markReceivedOne now r else r

/-- The loop of `mark_product_received` over the selected rows.
`restockErr` is the `restock_refunded_items` oracle: `some e` means the call
raises with message `e`, `none` means it returns normally.  The helper is
invoked on the already-updated row (save and item update happen first). -/
def markLoop (now : Nat) (restockErr : RefundRequest → Option String) :
    List RefundRequest → ActionResult
  | [] => ⟨[], [], [], [], [], 0⟩
  | r :: rest =>
    if r.status = "PENDING_RETURN" then
      { refunds := markReceivedOne now r :: (markLoop now restockErr rest).refunds
        restockCalls :=
          markReceivedOne now r :: (markLoop now restockErr rest).restockCalls
        rewardsCalls := (markLoop now restockErr rest).rewardsCalls
        restoreCalls := (markLoop now restockErr rest).restoreCalls
        msgs :=
          (match restockErr (markReceivedOne now r) with
            | some e => [Msg.restockError r.id e]
            | none => []) ++ (markLoop now restockErr rest).msgs
        updated := (markLoop now restockErr rest).updated + 1 }
    else
      { markLoop now restockErr rest with
        refunds := r :: (markLoop now restockErr rest).refunds }

/-- `RefundRequestAdmin.mark_product_received`: the loop followed by the
final success message reporting the `updated` counter. -/
def mark_product_received (now : Nat) (restockErr : RefundRequest → Option String)
    (qs : List RefundRequest) : ActionResult :=
  { markLoop now restockErr qs with
    msgs := (markLoop now restockErr qs).msgs ++
      [Msg.markReceivedSuccess (markLoop now restockErr qs).updated] }

/-- The per-request mutation `complete_refund` performs when it completes a
row: status `COMPLETED` and the `refund_completed_at` stamp. -/
def completeOne (now : Nat) (r : RefundRequest) : RefundRequest :=
  { r with status := "COMPLETED", refund_completed_at := some now }

/-- What `complete_refund` does to one selected row: rows outside the
`PROCESSING_REFUND` filter are untouched; a row with a user whose
`process_rewards_refund` call raises is skipped by `continue` (untouched);
otherwise the row is completed. -/
def completeStep (now : Nat) (rewardsErr : RefundRequest → Option String)
    (r : RefundRequest) : RefundRequest :=
  if r.status = "PROCESSING_REFUND" then
    if r.user.isSome then
      match rewardsErr r with
      | some _ => r
      | none => completeOne now r
    else completeOne now r
  else r

/-- Whether `complete_refund` counts a row in its `updated` total: it is in
the `PROCESSING_REFUND` filter and either has no user (guest, helper skipped)
or its `process_rewards_refund` call returns normally. -/
def completesOk (rewardsErr : RefundRequest → Option String)
    (r : RefundRequest) : Bool :=
  r.status == "PROCESSING_REFUND" && (!r.user.isSome || (rewardsErr r).isNone)

/-- The loop of `complete_refund` over the selected rows.  `rewardsErr` is
the `process_rewards_refund` oracle (`some e` = raises with message `e`). -/
def completeLoop (now : Nat) (rewardsErr : RefundRequest → Option String) :
    List RefundRequest → ActionResult
  | [] => ⟨[], [], [], [], [], 0⟩
  | r :: rest =>
    if r.status = "PROCESSING_REFUND" then
      if r.user.isSome then
        match rewardsErr r with
        | some e =>
          { completeLoop now rewardsErr rest with
            refunds := r :: (completeLoop now rewardsErr rest).refunds
            rewardsCalls := r :: (completeLoop now rewardsErr rest).rewardsCalls
            msgs := Msg.rewardsError r.id e ::
              (completeLoop now rewardsErr rest).msgs }
        | none =>
          { completeLoop now rewardsErr rest with
            refunds := completeOne now r :: (completeLoop now rewardsErr rest).refunds
            rewardsCalls := r :: (completeLoop now rewardsErr rest).rewardsCalls
            updated := (completeLoop now rewardsErr rest).updated + 1 }
      else
        { completeLoop now rewardsErr rest with
          refunds := completeOne now r :: (completeLoop now rewardsErr rest).refunds
          updated := (completeLoop now rewardsErr rest).updated + 1 }
    else
      { completeLoop now rewardsErr rest with
        refunds := r :: (completeLoop now rewardsErr rest).refunds }

/-- `RefundRequestAdmin.complete_refund`: the loop followed by the final
success message reporting the `updated` counter. -/
def complete_refund (now : Nat) (rewardsErr : RefundRequest → Option String)
    (qs : List RefundRequest) : ActionResult :=
  { completeLoop now rewardsErr qs with
    msgs := (completeLoop now rewardsErr qs).msgs ++
      [Msg.completeSuccess (completeLoop now rewardsErr qs).updated] }

/-- What `reject_refund`'s bulk
`queryset.exclude(status__in=['COMPLETED','REJECTED']).update(status='REJECTED')`
does to one selected row: only the `status` column of non-terminal rows is
written. -/
def rejectStep (r : RefundRequest) : RefundRequest :=
  if r.status = "COMPLETED" ∨ r.status = "REJECTED" then r
  else { r with status := "REJECTED" }

/-- `RefundRequestAdmin.reject_refund`: one bulk update, no helper calls;
the reported count is the number of rows the bulk update touched. -/
def reject_refund (qs : List RefundRequest) : ActionResult :=
  { refunds := qs.map rejectStep
    restockCalls := []
    rewardsCalls := []
    restoreCalls := []
    msgs := [Msg.rejectWarning
      ((qs.filter fun r => !(r.status == "COMPLETED" || r.status == "REJECTED")).length)]
    updated :=
      (qs.filter fun r => !(r.status == "COMPLETED" || r.status == "REJECTED")).length }

/-- Result of `restore_rewards_goodwill`: the (unchanged) selected rows, the
`restore_used_rewards` invocations, the emitted message, and the four
counters. -/
structure GoodwillResult where
  refunds : List RefundRequest
  restoreCalls : List RefundRequest
  msgs : List Msg
  restoredCount : Nat
  alreadyRestoredCount : Nat
  noRewardsCount : Nat
  guestCount : Nat
  deriving DecidableEq

/-- The classification loop of `restore_rewards_goodwill`: guest check first
(`continue`), then the `rewards_used <= 0` check (`continue`), then the
`restore_used_rewards` call whose boolean result picks restored vs
already-restored.  `restore` is the `restore_used_rewards` oracle. -/
def goodwillLoop (restore : RefundRequest → Bool) :
    List RefundRequest → GoodwillResult
  | [] => ⟨[], [], [], 0, 0, 0, 0⟩
  | r :: rest =>
    if r.user.isNone then
      { goodwillLoop restore rest with
        guestCount := (goodwillLoop restore rest).guestCount + 1 }
    else if r.rewards_used ≤ 0 then
      { goodwillLoop restore rest with
        noRewardsCount := (goodwillLoop restore rest).noRewardsCount + 1 }
    else if restore r then
      { goodwillLoop restore rest with
        restoredCount := (goodwillLoop restore rest).restoredCount + 1
        restoreCalls := r :: (goodwillLoop restore rest).restoreCalls }
    else
      { goodwillLoop restore rest with
        alreadyRestoredCount := (goodwillLoop restore rest).alreadyRestoredCount + 1
        restoreCalls := r :: (goodwillLoop restore rest).restoreCalls }

/-- The dollar total interpolated into the restored message:
`sum([r.rewards_used for r in queryset if r.user and r.rewards_used > 0])`,
a second pass over the whole (unmodified) queryset. -/
def goodwillSum (qs : List RefundRequest) : Int :=
  ((qs.filter fun r => r.user.isSome && decide (0 < r.rewards_used)).map
    (fun r => r.rewards_used)).sum

/-- The `messages_list` built by `restore_rewards_goodwill` from the four
counters and the interpolated dollar total. -/
def goodwillParts (rc ac nc gc : Nat) (total : Int) : List MsgPart :=
  (if 0 < rc then [MsgPart.restored rc total] else []) ++
  (if 0 < ac then [MsgPart.alreadyRestored ac] else []) ++
  (if 0 < nc then [MsgPart.noRewards nc] else []) ++
  (if 0 < gc then [MsgPart.guests gc] else [])

/-- `RefundRequestAdmin.restore_rewards_goodwill`: the classification loop,
then one message (SUCCESS when anything was restored, WARNING otherwise)
carrying the message parts.  The action writes no refund row. -/
def restore_rewards_goodwill (restore : RefundRequest → Bool)
    (qs : List RefundRequest) : GoodwillResult :=
  { goodwillLoop restore qs with
    refunds := qs
    msgs := [if 0 < (goodwillLoop restore qs).restoredCount then
        Msg.restoreSuccess (goodwillParts (goodwillLoop restore qs).restoredCount
          (goodwillLoop restore qs).alreadyRestoredCount
          (goodwillLoop restore qs).noRewardsCount
          (goodwillLoop restore qs).guestCount (goodwillSum qs))
      else
        Msg.restoreWarning (goodwillParts (goodwillLoop restore qs).restoredCount
          (goodwillLoop restore qs).alreadyRestoredCount
          (goodwillLoop restore qs).noRewardsCount
          (goodwillLoop restore qs).guestCount (goodwillSum qs))] }

/-- The outcome bucket `restore_rewards_goodwill` assigns to one selected
request, in the source's check order: guest first, then no-rewards, then the
helper's boolean. -/
inductive Bucket where
  | restored
  | alreadyRestored
  | noRewards
  | guest
  deriving DecidableEq

/-- Bucket classification of one request, following the source's loop body. -/
def bucketOf (restore : RefundRequest → Bool) (r : RefundRequest) : Bucket :=
  if r.user.isNone then Bucket.guest
  else if r.rewards_used ≤ 0 then Bucket.noRewards
  else if restore r then Bucket.restored
  else Bucket.alreadyRestored

/-- The message parts carried by a goodwill summary message (empty for the
other message kinds). -/
def msgParts : Msg → List MsgPart
  | Msg.restoreSuccess ps => ps
  | Msg.restoreWarning ps => ps
  | _ => []

/-- The dollar total of the first `restored` part of a message-part list,
if any. -/
def findRestoredTotal : List MsgPart → Option Int
  | [] => none
  | MsgPart.restored _ t :: _ => some t
  | _ :: ps => findRestoredTotal ps

/-- The dollar total the action's emitted messages report for the restored
bucket, if they report one. -/
def reportedRestoredTotal (res : GoodwillResult) : Option Int :=
  findRestoredTotal (res.msgs.map msgParts).flatten

/-- Formalisation of claim C1's words, not of the source: the sum of
`rewards_used` over exactly the requests in the restored bucket — those for
which the restore helper returned true. -/
def claimRestoredBucketSum (restore : RefundRequest → Bool)
    (qs : List RefundRequest) : Int :=
  ((qs.filter fun r => bucketOf restore r == Bucket.restored).map
    (fun r => r.rewards_used)).sum

/-- A product row, as far as `product_name` dereferences it. -/
structure Product where
  title : String
  deriving DecidableEq

/-- An order-item row; `product = none` models a dereference that raises. -/
structure OrderItemRow where
  product : Option Product
  deriving DecidableEq

/-- A refund-item row as `RefundItemAdmin` sees it; `order_item = none`
models a dereference that raises. -/
structure RefundItemRow where
  order_item : Option OrderItemRow
  deriving DecidableEq

/-- The dereference chain `obj.order_item.product.title`; `Except.error e`
models a raised exception with message `e`. -/
def derefTitle (obj : RefundItemRow) : Except String String :=
  match obj.order_item with
  | none => Except.error "RefundItem has no related OrderItem"
  | some oi =>
    match oi.product with
    | none => Except.error "OrderItem has no related Product"
    | some p => Except.ok p.title

/-- `RefundItemAdmin.product_name`: the product title, or the inline
`"Error: ..."` string when the dereference raises. -/
def product_name (obj : RefundItemRow) : String :=
  match derefTitle obj with
  | Except.ok t => t
  | Except.error e => "Error: " ++ e

/-! ### Lemmas about `mark_product_received` -/

theorem markReceivedOne_items_acceptable (now : Nat) (r : RefundRequest) :
    ∀ it ∈ (markReceivedOne now r).items, it.condition_acceptable = true := by
  intro it hit
  simp only [markReceivedOne, List.mem_map] at hit
  obtain ⟨x, _, hx⟩ := hit
  subst hx
  rfl

theorem markLoop_refunds (now : Nat) (restockErr : RefundRequest → Option String) :
    ∀ qs : List RefundRequest,
      (markLoop now restockErr qs).refunds = qs.map (markStep now)
  | [] => rfl
  | r :: rest => by
    by_cases h : r.status = "PENDING_RETURN" <;>
      simp [markLoop, markStep, h, markLoop_refunds now restockErr rest]

theorem markLoop_updated (now : Nat) (restockErr : RefundRequest → Option String) :
    ∀ qs : List RefundRequest,
      (markLoop now restockErr qs).updated
        = (qs.filter fun x => x.status == "PENDING_RETURN").length
  | [] => rfl
  | r :: rest => by
    by_cases h : r.status = "PENDING_RETURN" <;>
      simp [markLoop, List.filter_cons, h, markLoop_updated now restockErr rest]

theorem markLoop_restockCalls (now : Nat) (restockErr : RefundRequest → Option String) :
    ∀ qs : List RefundRequest,
      (markLoop now restockErr qs).restockCalls
        = (qs.filter fun x => x.status == "PENDING_RETURN").map (markReceivedOne now)
  | [] => rfl
  | r :: rest => by
    by_cases h : r.status = "PENDING_RETURN" <;>
      simp [markLoop, List.filter_cons, h, markLoop_restockCalls now restockErr rest]

theorem markLoop_msg_mem (now : Nat) (restockErr : RefundRequest → Option String)
    (e : String) (qs : List RefundRequest) :
    ∀ r ∈ qs, r.status = "PENDING_RETURN" →
      restockErr (markReceivedOne now r) = some e →
      Msg.restockError r.id e ∈ (markLoop now restockErr qs).msgs := by
  induction qs with
  | nil => intro r hmem; simp at hmem
  | cons x rest ih =>
    intro r hmem hs he
    rcases List.mem_cons.mp hmem with hrx | hmem'
    · subst hrx
      simp [markLoop, hs, he]
    · by_cases hx : x.status = "PENDING_RETURN"
      · simp only [markLoop, hx, if_true, List.mem_append]
        right
        exact ih r hmem' hs he
      · simp only [markLoop, hx, if_false]
        exact ih r hmem' hs he

theorem mark_refunds_eq (now : Nat) (restockErr : RefundRequest → Option String)
    (qs : List RefundRequest) :
    (mark_product_received now restockErr qs).refunds = qs.map (markStep now) := by
  simp [mark_product_received, markLoop_refunds]

theorem mark_updated_eq (now : Nat) (restockErr : RefundRequest → Option String)
    (qs : List RefundRequest) :
    (mark_product_received now restockErr qs).updated
      = (qs.filter fun x => x.status == "PENDING_RETURN").length := by
  simp [mark_product_received, markLoop_updated]

theorem mark_restockCalls_eq (now : Nat) (restockErr : RefundRequest → Option String)
    (qs : List RefundRequest) :
    (mark_product_received now restockErr qs).restockCalls
      = (qs.filter fun x => x.status == "PENDING_RETURN").map (markReceivedOne now) := by
  simp [mark_product_received, markLoop_restockCalls]

theorem mark_msgs_eq (now : Nat) (restockErr : RefundRequest → Option String)
    (qs : List RefundRequest) :
    (mark_product_received now restockErr qs).msgs
      = (markLoop now restockErr qs).msgs ++
        [Msg.markReceivedSuccess (markLoop now restockErr qs).updated] := rfl

/-! ### Lemmas about `complete_refund` -/

theorem completeLoop_refunds (now : Nat) (rewardsErr : RefundRequest → Option String) :
    ∀ qs : List RefundRequest,
      (completeLoop now rewardsErr qs).refunds = qs.map (completeStep now rewardsErr)
  | [] => rfl
  | r :: rest => by
    by_cases h : r.status = "PROCESSING_REFUND"
    · by_cases hu : r.user.isSome
      · cases he : rewardsErr r <;>
          simp [completeLoop, completeStep, h, hu, he,
            completeLoop_refunds now rewardsErr rest]
      · simp [completeLoop, completeStep, h, hu,
          completeLoop_refunds now rewardsErr rest]
    · simp [completeLoop, completeStep, h,
        completeLoop_refunds now rewardsErr rest]

theorem completeLoop_updated (now : Nat) (rewardsErr : RefundRequest → Option String) :
    ∀ qs : List RefundRequest,
      (completeLoop now rewardsErr qs).updated
        = (qs.filter (completesOk rewardsErr)).length
  | [] => rfl
  | r :: rest => by
    by_cases h : r.status = "PROCESSING_REFUND"
    · by_cases hu : r.user.isSome
      · cases he : rewardsErr r <;>
          simp [completeLoop, completesOk, List.filter_cons, h, hu, he,
            completeLoop_updated now rewardsErr rest]
      · simp [completeLoop, completesOk, List.filter_cons, h, hu,
          completeLoop_updated now rewardsErr rest]
    · simp [completeLoop, completesOk, List.filter_cons, h,
        completeLoop_updated now rewardsErr rest]

theorem completeLoop_rewardsCalls (now : Nat)
    (rewardsErr : RefundRequest → Option String) :
    ∀ qs : List RefundRequest,
      (completeLoop now rewardsErr qs).rewardsCalls
        = qs.filter fun x => x.status == "PROCESSING_REFUND" && x.user.isSome
  | [] => rfl
  | r :: rest => by
    by_cases h : r.status = "PROCESSING_REFUND"
    · by_cases hu : r.user.isSome
      · cases he : rewardsErr r <;>
          simp [completeLoop, List.filter_cons, h, hu, he,
            completeLoop_rewardsCalls now rewardsErr rest]
      · simp [completeLoop, List.filter_cons, h, hu,
          completeLoop_rewardsCalls now rewardsErr rest]
    · simp [completeLoop, List.filter_cons, h,
        completeLoop_rewardsCalls now rewardsErr rest]

theorem completeLoop_msg_mem (now : Nat) (rewardsErr : RefundRequest → Option String)
    (e : String) (qs : List RefundRequest) :
    ∀ r ∈ qs, r.status = "PROCESSING_REFUND" → r.user.isSome = true →
      rewardsErr r = some e →
      Msg.rewardsError r.id e ∈ (completeLoop now rewardsErr qs).msgs := by
  induction qs with
  | nil => intro r hmem; simp at hmem
  | cons x rest ih =>
    intro r hmem hs hu he
    rcases List.mem_cons.mp hmem with hrx | hmem'
    · subst hrx
      simp [completeLoop, hs, hu, he]
    · by_cases hx : x.status = "PROCESSING_REFUND"
      · by_cases hxu : x.user.isSome
        · cases hxe : rewardsErr x <;>
            · simp only [completeLoop, hx, hxu, hxe, if_true, List.mem_cons]
              first
                | exact ih r hmem' hs hu he
                | exact Or.inr (ih r hmem' hs hu he)
        · simp only [completeLoop, hx, hxu, if_true, Bool.false_eq_true, if_false]
          exact ih r hmem' hs hu he
      · simp only [completeLoop, hx, if_false]
        exact ih r hmem' hs hu he

theorem complete_refunds_eq (now : Nat) (rewardsErr : RefundRequest → Option String)
    (qs : List RefundRequest) :
    (complete_refund now rewardsErr qs).refunds = qs.map (completeStep now rewardsErr) := by
  simp [complete_refund, completeLoop_refunds]

theorem complete_updated_eq (now : Nat) (rewardsErr : RefundRequest → Option String)
    (qs : List RefundRequest) :
    (complete_refund now rewardsErr qs).updated
      = (qs.filter (completesOk rewardsErr)).length := by
  simp [complete_refund, completeLoop_updated]

theorem complete_rewardsCalls_eq (now : Nat)
    (rewardsErr : RefundRequest → Option String) (qs : List RefundRequest) :
    (complete_refund now rewardsErr qs).rewardsCalls
      = qs.filter fun x => x.status == "PROCESSING_REFUND" && x.user.isSome := by
  simp [complete_refund, completeLoop_rewardsCalls]

theorem complete_msgs_eq (now : Nat) (rewardsErr : RefundRequest → Option String)
    (qs : List RefundRequest) :
    (complete_refund now rewardsErr qs).msgs
      = (completeLoop now rewardsErr qs).msgs ++
        [Msg.completeSuccess (completeLoop now rewardsErr qs).updated] := rfl


/-! ### Lemmas about `restore_rewards_goodwill` -/

theorem goodwillLoop_restoredCount (restore : RefundRequest → Bool) :
    ∀ qs : List RefundRequest,
      (goodwillLoop restore qs).restoredCount
        = (qs.filter fun r => bucketOf restore r == Bucket.restored).length
  | [] => rfl
  | r :: rest => by
    cases hv : r.user with
    | none =>
      simp [goodwillLoop, bucketOf, List.filter_cons, hv,
        goodwillLoop_restoredCount restore rest]
    | some u =>
      by_cases hw : r.rewards_used ≤ 0
      · simp [goodwillLoop, bucketOf, List.filter_cons, hv, hw,
          goodwillLoop_restoredCount restore rest]
      · by_cases hr : restore r = true <;>
          simp [goodwillLoop, bucketOf, List.filter_cons, hv, hw, hr,
            goodwillLoop_restoredCount restore rest]

theorem goodwillLoop_alreadyCount (restore : RefundRequest → Bool) :
    ∀ qs : List RefundRequest,
      (goodwillLoop restore qs).alreadyRestoredCount
        = (qs.filter fun r => bucketOf restore r == Bucket.alreadyRestored).length
  | [] => rfl
  | r :: rest => by
    cases hv : r.user with
    | none =>
      simp [goodwillLoop, bucketOf, List.filter_cons, hv,
        goodwillLoop_alreadyCount restore rest]
    | some u =>
      by_cases hw : r.rewards_used ≤ 0
      · simp [goodwillLoop, bucketOf, List.filter_cons, hv, hw,
          goodwillLoop_alreadyCount restore rest]
      · by_cases hr : restore r = true <;>
          simp [goodwillLoop, bucketOf, List.filter_cons, hv, hw, hr,
            goodwillLoop_alreadyCount restore rest]

theorem goodwillLoop_noRewardsCount (restore : RefundRequest → Bool) :
    ∀ qs : List RefundRequest,
      (goodwillLoop restore qs).noRewardsCount
        = (qs.filter fun r => bucketOf restore r == Bucket.noRewards).length
  | [] => rfl
  | r :: rest => by
    cases hv : r.user with
    | none =>
      simp [goodwillLoop, bucketOf, List.filter_cons, hv,
        goodwillLoop_noRewardsCount restore rest]
    | some u =>
      by_cases hw : r.rewards_used ≤ 0
      · simp [goodwillLoop, bucketOf, List.filter_cons, hv, hw,
          goodwillLoop_noRewardsCount restore rest]
      · by_cases hr : restore r = true <;>
          simp [goodwillLoop, bucketOf, List.filter_cons, hv, hw, hr,
            goodwillLoop_noRewardsCount restore rest]

theorem goodwillLoop_guestCount (restore : RefundRequest → Bool) :
    ∀ qs : List RefundRequest,
      (goodwillLoop restore qs).guestCount
        = (qs.filter fun r => r.user.isNone).length
  | [] => rfl
  | r :: rest => by
    cases hv : r.user with
    | none =>
      simp [goodwillLoop, List.filter_cons, hv, goodwillLoop_guestCount restore rest]
    | some u =>
      by_cases hw : r.rewards_used ≤ 0
      · simp [goodwillLoop, List.filter_cons, hv, hw,
          goodwillLoop_guestCount restore rest]
      · by_cases hr : restore r = true <;>
          simp [goodwillLoop, List.filter_cons, hv, hw, hr,
            goodwillLoop_guestCount restore rest]

theorem goodwillLoop_counts_sum (restore : RefundRequest → Bool) :
    ∀ qs : List RefundRequest,
      (goodwillLoop restore qs).restoredCount
      + (goodwillLoop restore qs).alreadyRestoredCount
      + (goodwillLoop restore qs).noRewardsCount
      + (goodwillLoop restore qs).guestCount = qs.length
  | [] => rfl
  | r :: rest => by
    have ih := goodwillLoop_counts_sum restore rest
    cases hv : r.user with
    | none =>
      simp [goodwillLoop, hv]; omega
    | some u =>
      by_cases hw : r.rewards_used ≤ 0
      · simp [goodwillLoop, hv, hw]; omega
      · by_cases hr : restore r = true <;>
          · simp [goodwillLoop, hv, hw, hr]; omega

theorem goodwillLoop_restoreCalls (restore : RefundRequest → Bool) :
    ∀ qs : List RefundRequest,
      (goodwillLoop restore qs).restoreCalls
        = qs.filter fun r => r.user.isSome && decide (0 < r.rewards_used)
  | [] => rfl
  | r :: rest => by
    cases hv : r.user with
    | none =>
      simp [goodwillLoop, List.filter_cons, hv, goodwillLoop_restoreCalls restore rest]
    | some u =>
      by_cases hw : r.rewards_used ≤ 0
      · have hp : ¬ (0 < r.rewards_used) := by omega
        simp [goodwillLoop, List.filter_cons, hv, hw, hp,
          goodwillLoop_restoreCalls restore rest]
      · have hp : 0 < r.rewards_used := by omega
        by_cases hr : restore r = true <;>
          simp [goodwillLoop, List.filter_cons, hv, hw, hp, hr,
            goodwillLoop_restoreCalls restore rest]

theorem goodwillSum_split (restore : RefundRequest → Bool) :
    ∀ qs : List RefundRequest,
      goodwillSum qs
        = ((qs.filter fun r => bucketOf restore r == Bucket.restored).map
            (fun r => r.rewards_used)).sum
        + ((qs.filter fun r => bucketOf restore r == Bucket.alreadyRestored).map
            (fun r => r.rewards_used)).sum
  | [] => rfl
  | r :: rest => by
    have ih := goodwillSum_split restore rest
    cases hv : r.user with
    | none =>
      simp [goodwillSum, bucketOf, List.filter_cons, hv] at ih ⊢; omega
    | some u =>
      by_cases hw : r.rewards_used ≤ 0
      · have hp : ¬ (0 < r.rewards_used) := by omega
        simp [goodwillSum, bucketOf, List.filter_cons, hv, hw, hp] at ih ⊢; omega
      · have hp : 0 < r.rewards_used := by omega
        by_cases hr : restore r = true <;>
          · simp [goodwillSum, bucketOf, List.filter_cons, hv, hw, hp, hr] at ih ⊢
            omega

theorem goodwill_refunds_eq (restore : RefundRequest → Bool)
    (qs : List RefundRequest) :
    (restore_rewards_goodwill restore qs).refunds = qs := rfl

theorem goodwill_counts_eq (restore : RefundRequest → Bool)
    (qs : List RefundRequest) :
    (restore_rewards_goodwill restore qs).restoredCount
        = (goodwillLoop restore qs).restoredCount
  ∧ (restore_rewards_goodwill restore qs).alreadyRestoredCount
        = (goodwillLoop restore qs).alreadyRestoredCount
  ∧ (restore_rewards_goodwill restore qs).noRewardsCount
        = (goodwillLoop restore qs).noRewardsCount
  ∧ (restore_rewards_goodwill restore qs).guestCount
        = (goodwillLoop restore qs).guestCount :=
  ⟨rfl, rfl, rfl, rfl⟩

theorem findRestoredTotal_append_none (l l2 : List MsgPart)
    (h : findRestoredTotal l = none) :
    findRestoredTotal (l ++ l2) = findRestoredTotal l2 := by
  induction l with
  | nil => rfl
  | cons p ps ih =>
    cases p with
    | restored n t => simp [findRestoredTotal] at h
    | alreadyRestored n =>
      simp only [findRestoredTotal] at h
      simp only [List.cons_append, findRestoredTotal]
      exact ih h
    | noRewards n =>
      simp only [findRestoredTotal] at h
      simp only [List.cons_append, findRestoredTotal]
      exact ih h
    | guests n =>
      simp only [findRestoredTotal] at h
      simp only [List.cons_append, findRestoredTotal]
      exact ih h

theorem findRestoredTotal_goodwillParts_zero (ac nc gc : Nat) (total : Int) :
    findRestoredTotal (goodwillParts 0 ac nc gc total) = none := by
  by_cases h1 : 0 < ac <;> by_cases h2 : 0 < nc <;> by_cases h3 : 0 < gc <;>
    simp [goodwillParts, h1, h2, h3, findRestoredTotal]

theorem goodwill_reported_total (restore : RefundRequest → Bool)
    (qs : List RefundRequest) :
    reportedRestoredTotal (restore_rewards_goodwill restore qs)
      = (if 0 < (goodwillLoop restore qs).restoredCount
          then some (goodwillSum qs) else none) := by
  by_cases hc : 0 < (goodwillLoop restore qs).restoredCount
  · simp only [reportedRestoredTotal, restore_rewards_goodwill, hc, if_true,
      List.map_cons, List.map_nil, List.flatten, msgParts, List.append_nil,
      goodwillParts, List.cons_append, findRestoredTotal]
  · have hz : (goodwillLoop restore qs).restoredCount = 0 := by omega
    simp only [reportedRestoredTotal, restore_rewards_goodwill, hc, if_false,
      List.map_cons, List.map_nil, List.flatten, msgParts, List.append_nil, hz]
    exact findRestoredTotal_goodwillParts_zero _ _ _ _

theorem goodwillLoop_guestBucketCount (restore : RefundRequest → Bool) :
    ∀ qs : List RefundRequest,
      (goodwillLoop restore qs).guestCount
        = (qs.filter fun r => bucketOf restore r == Bucket.guest).length
  | [] => rfl
  | r :: rest => by
    cases hv : r.user with
    | none =>
      simp [goodwillLoop, bucketOf, List.filter_cons, hv,
        goodwillLoop_guestBucketCount restore rest]
    | some u =>
      by_cases hw : r.rewards_used ≤ 0
      · simp [goodwillLoop, bucketOf, List.filter_cons, hv, hw,
          goodwillLoop_guestBucketCount restore rest]
      · by_cases hr : restore r = true <;>
          simp [goodwillLoop, bucketOf, List.filter_cons, hv, hw, hr,
            goodwillLoop_guestBucketCount restore rest]

theorem rejectStep_fields (r : RefundRequest) :
    (rejectStep r).id = r.id ∧ (rejectStep r).user = r.user
  ∧ (rejectStep r).rewards_used = r.rewards_used
  ∧ (rejectStep r).product_received_at = r.product_received_at
  ∧ (rejectStep r).refund_completed_at = r.refund_completed_at
  ∧ (rejectStep r).rejection_reason = r.rejection_reason
  ∧ (rejectStep r).items = r.items := by
  simp only [rejectStep]
  split <;> exact ⟨rfl, rfl, rfl, rfl, rfl, rfl, rfl⟩

/-! ### Concrete rows and oracles for witnesses and the counterexample -/

/-- A `PENDING_RETURN` request with one not-yet-acceptable item. -/
def wPend : RefundRequest :=
  { id := 10, status := "PENDING_RETURN", user := some 1, rewards_used := 0,
    product_received_at := none, refund_completed_at := none,
    rejection_reason := none,
    items := [{ condition_acceptable := false, restocked := false }] }

/-- A second `PENDING_RETURN` request. -/
def wPend2 : RefundRequest := { wPend with id := 11 }

/-- A `PROCESSING_REFUND` request with a registered user. -/
def wProc : RefundRequest := { wPend with id := 12, status := "PROCESSING_REFUND" }

/-- A `PROCESSING_REFUND` request of a guest order. -/
def wProcGuest : RefundRequest := { wProc with id := 13, user := none }

/-- An already `COMPLETED` request. -/
def wDone : RefundRequest := { wPend with id := 14, status := "COMPLETED" }

/-- A helper oracle that always returns normally. -/
def oracleNone : RefundRequest → Option String := fun _ => none

/-- A helper oracle that always raises with message `"boom"`. -/
def oracleBoom : RefundRequest → Option String := fun _ => some "boom"

/-- Goodwill row whose rewards were already restored earlier. -/
def rGW1 : RefundRequest :=
  { id := 1, status := "PROCESSING_REFUND", user := some 1, rewards_used := 5,
    product_received_at := none, refund_completed_at := none,
    rejection_reason := none, items := [] }

/-- Goodwill row whose rewards get restored now. -/
def rGW2 : RefundRequest := { rGW1 with id := 2, user := some 2, rewards_used := 3 }

/-- `restore_used_rewards` oracle: only request 2 is actually restored. -/
def restoreOnly2 : RefundRequest → Bool := fun r => r.id == 2

/-! ### Claim theorems -/

/-- C1 counterexample: with two selected requests, both with a registered
user and positive `rewards_used`, where the helper restores only request 2
(request 1 was already restored), the action reports a restored-bucket total
of 8 dollars while the sum of `rewards_used` over the restored bucket alone
is 3: the reported total is not the restored-bucket sum. -/
theorem c1_goodwill_total_counterexample :
    reportedRestoredTotal (restore_rewards_goodwill restoreOnly2 [rGW1, rGW2]) = some 8
  ∧ claimRestoredBucketSum restoreOnly2 [rGW1, rGW2] = 3
  ∧ ¬ reportedRestoredTotal (restore_rewards_goodwill restoreOnly2 [rGW1, rGW2])
      = some (claimRestoredBucketSum restoreOnly2 [rGW1, rGW2]) := by
  decide

/-- C1 (amended): the action classifies each selected request into exactly
one of the four disjoint buckets (the four counters are the lengths of the
four bucket filters of the selection), and the dollar total it reports for
the restored bucket equals the sum of `rewards_used` over the restored AND
the already-restored buckets together (all selected requests with a
registered user and positive `rewards_used`), reported iff the restored
bucket is nonempty. -/
theorem c1_goodwill_buckets_and_total (restore : RefundRequest → Bool)
    (qs : List RefundRequest) :
    (restore_rewards_goodwill restore qs).restoredCount
        = (qs.filter fun r => bucketOf restore r == Bucket.restored).length
  ∧ (restore_rewards_goodwill restore qs).alreadyRestoredCount
        = (qs.filter fun r => bucketOf restore r == Bucket.alreadyRestored).length
  ∧ (restore_rewards_goodwill restore qs).noRewardsCount
        = (qs.filter fun r => bucketOf restore r == Bucket.noRewards).length
  ∧ (restore_rewards_goodwill restore qs).guestCount
        = (qs.filter fun r => bucketOf restore r == Bucket.guest).length
  ∧ reportedRestoredTotal (restore_rewards_goodwill restore qs)
      = (if 0 < (restore_rewards_goodwill restore qs).restoredCount then
          some (claimRestoredBucketSum restore qs
            + ((qs.filter fun r => bucketOf restore r == Bucket.alreadyRestored).map
                (fun r => r.rewards_used)).sum)
        else none) := by
  refine ⟨goodwillLoop_restoredCount restore qs, goodwillLoop_alreadyCount restore qs,
    goodwillLoop_noRewardsCount restore qs, goodwillLoop_guestBucketCount restore qs, ?_⟩
  rw [goodwill_reported_total, goodwillSum_split restore qs]
  rfl

/-- C2: in `complete_refund`, a selected `PROCESSING_REFUND` request with a
registered user whose `process_rewards_refund` call raises is left entirely
unchanged, an error message naming it is emitted, it is not counted in the
reported total, and every other selected request is still processed (the
output rows are the elementwise processing of the whole selection). -/
theorem c2_complete_refund_helper_failure (now : Nat)
    (rewardsErr : RefundRequest → Option String) (qs : List RefundRequest)
    (r : RefundRequest) (e : String) (hmem : r ∈ qs)
    (hs : r.status = "PROCESSING_REFUND") (hu : r.user.isSome = true)
    (he : rewardsErr r = some e) :
    completeStep now rewardsErr r = r
  ∧ Msg.rewardsError r.id e ∈ (complete_refund now rewardsErr qs).msgs
  ∧ (complete_refund now rewardsErr qs).refunds = qs.map (completeStep now rewardsErr)
  ∧ (complete_refund now rewardsErr qs).updated
      = (qs.filter (completesOk rewardsErr)).length
  ∧ completesOk rewardsErr r = false
  ∧ Msg.completeSuccess ((qs.filter (completesOk rewardsErr)).length)
      ∈ (complete_refund now rewardsErr qs).msgs := by
  refine ⟨by simp [completeStep, hs, hu, he], ?_,
    complete_refunds_eq now rewardsErr qs, complete_updated_eq now rewardsErr qs,
    by simp [completesOk, hs, hu, he], ?_⟩
  · rw [complete_msgs_eq]
    exact List.mem_append_left _ (completeLoop_msg_mem now rewardsErr e qs r hmem hs hu he)
  · rw [complete_msgs_eq, completeLoop_updated]
    simp

/-- C2 witness: one selected `PROCESSING_REFUND` request with a user whose
rewards helper always raises. -/
theorem c2_complete_refund_helper_failure_witness :
    completeStep 0 oracleBoom wProc = wProc
  ∧ Msg.rewardsError wProc.id "boom" ∈ (complete_refund 0 oracleBoom [wProc]).msgs
  ∧ (complete_refund 0 oracleBoom [wProc]).refunds = [wProc].map (completeStep 0 oracleBoom)
  ∧ (complete_refund 0 oracleBoom [wProc]).updated
      = ([wProc].filter (completesOk oracleBoom)).length
  ∧ completesOk oracleBoom wProc = false
  ∧ Msg.completeSuccess (([wProc].filter (completesOk oracleBoom)).length)
      ∈ (complete_refund 0 oracleBoom [wProc]).msgs :=
  c2_complete_refund_helper_failure 0 oracleBoom [wProc] wProc "boom"
    (by decide) (by decide) (by decide) (by decide)

/-- C3: on a selected `PENDING_RETURN` request, `mark_product_received` sets
status `PRODUCT_RECEIVED`, stamps `product_received_at` with the current
time, marks all of its N items `condition_acceptable` (keeping N), and the
restock helper is invoked for it after the item update (every restock call
argument already has every item acceptable). -/
theorem c3_mark_received_effect (now : Nat)
    (restockErr : RefundRequest → Option String) (qs : List RefundRequest)
    (r : RefundRequest) (hmem : r ∈ qs) (hs : r.status = "PENDING_RETURN") :
    (markReceivedOne now r).status = "PRODUCT_RECEIVED"
  ∧ (markReceivedOne now r).product_received_at = some now
  ∧ (markReceivedOne now r).items.length = r.items.length
  ∧ (∀ it ∈ (markReceivedOne now r).items, it.condition_acceptable = true)
  ∧ markReceivedOne now r ∈ (mark_product_received now restockErr qs).restockCalls
  ∧ (∀ c ∈ (mark_product_received now restockErr qs).restockCalls,
      ∀ it ∈ c.items, it.condition_acceptable = true)
  ∧ (mark_product_received now restockErr qs).refunds = qs.map (markStep now)
  ∧ markStep now r = markReceivedOne now r := by
  refine ⟨rfl, rfl, by simp [markReceivedOne], markReceivedOne_items_acceptable now r,
    ?_, ?_, mark_refunds_eq now restockErr qs, by simp [markStep, hs]⟩
  · rw [mark_restockCalls_eq]
    exact List.mem_map_of_mem _ (List.mem_filter.mpr ⟨hmem, by simp [hs]⟩)
  · intro c hc
    rw [mark_restockCalls_eq] at hc
    obtain ⟨x, _, hx⟩ := List.mem_map.mp hc
    subst hx
    exact markReceivedOne_items_acceptable now x

/-- C3 witness: one selected `PENDING_RETURN` request with one item. -/
theorem c3_mark_received_effect_witness :
    (markReceivedOne 0 wPend).status = "PRODUCT_RECEIVED"
  ∧ (markReceivedOne 0 wPend).product_received_at = some 0
  ∧ (markReceivedOne 0 wPend).items.length = wPend.items.length
  ∧ (∀ it ∈ (markReceivedOne 0 wPend).items, it.condition_acceptable = true)
  ∧ markReceivedOne 0 wPend ∈ (mark_product_received 0 oracleNone [wPend]).restockCalls
  ∧ (∀ c ∈ (mark_product_received 0 oracleNone [wPend]).restockCalls,
      ∀ it ∈ c.items, it.condition_acceptable = true)
  ∧ (mark_product_received 0 oracleNone [wPend]).refunds = [wPend].map (markStep 0)
  ∧ markStep 0 wPend = markReceivedOne 0 wPend :=
  c3_mark_received_effect 0 oracleNone [wPend] wPend (by decide) (by decide)

/-- C4: `mark_product_received` leaves every selected request whose status is
not `PENDING_RETURN` unchanged, processes the selection elementwise, and the
count in the success message equals the number of selected `PENDING_RETURN`
requests. -/
theorem c4_mark_received_frame (now : Nat)
    (restockErr : RefundRequest → Option String) (qs : List RefundRequest)
    (r : RefundRequest) (_hmem : r ∈ qs) (hns : ¬ r.status = "PENDING_RETURN") :
    markStep now r = r
  ∧ (mark_product_received now restockErr qs).refunds = qs.map (markStep now)
  ∧ (mark_product_received now restockErr qs).updated
      = (qs.filter fun x => x.status == "PENDING_RETURN").length
  ∧ Msg.markReceivedSuccess
      ((qs.filter fun x => x.status == "PENDING_RETURN").length)
      ∈ (mark_product_received now restockErr qs).msgs := by
  refine ⟨by simp [markStep, hns], mark_refunds_eq now restockErr qs,
    mark_updated_eq now restockErr qs, ?_⟩
  rw [mark_msgs_eq, markLoop_updated]
  simp

/-- C4 witness: the spec's example batch of 3 (two `PENDING_RETURN`, one
`PROCESSING_REFUND`): the third is untouched and the reported count is 2. -/
theorem c4_mark_received_frame_witness :
    (markStep 0 wProc = wProc
  ∧ (mark_product_received 0 oracleNone [wPend, wPend2, wProc]).refunds
      = [wPend, wPend2, wProc].map (markStep 0)
  ∧ (mark_product_received 0 oracleNone [wPend, wPend2, wProc]).updated
      = ([wPend, wPend2, wProc].filter fun x => x.status == "PENDING_RETURN").length
  ∧ Msg.markReceivedSuccess
      (([wPend, wPend2, wProc].filter fun x => x.status == "PENDING_RETURN").length)
      ∈ (mark_product_received 0 oracleNone [wPend, wPend2, wProc]).msgs)
  ∧ ([wPend, wPend2, wProc].filter fun x => x.status == "PENDING_RETURN").length = 2 :=
  ⟨c4_mark_received_frame 0 oracleNone [wPend, wPend2, wProc] wProc
    (by decide) (by decide), by decide⟩

/-- C5: `complete_refund` on a selected `PROCESSING_REFUND` guest request
(no user) performs no rewards-helper call for it and still completes it,
stamping `refund_completed_at`. -/
theorem c5_complete_refund_guest (now : Nat)
    (rewardsErr : RefundRequest → Option String) (qs : List RefundRequest)
    (r : RefundRequest) (_hmem : r ∈ qs) (hs : r.status = "PROCESSING_REFUND")
    (hu : r.user = none) :
    completeStep now rewardsErr r = completeOne now r
  ∧ (completeOne now r).status = "COMPLETED"
  ∧ (completeOne now r).refund_completed_at = some now
  ∧ r ∉ (complete_refund now rewardsErr qs).rewardsCalls
  ∧ (complete_refund now rewardsErr qs).refunds
      = qs.map (completeStep now rewardsErr) := by
  refine ⟨by simp [completeStep, hs, hu], rfl, rfl, ?_,
    complete_refunds_eq now rewardsErr qs⟩
  rw [complete_rewardsCalls_eq]
  intro hc
  have hp := (List.mem_filter.mp hc).2
  simp [hu] at hp

/-- C5 witness: one selected `PROCESSING_REFUND` guest request. -/
theorem c5_complete_refund_guest_witness :
    completeStep 0 oracleBoom wProcGuest = completeOne 0 wProcGuest
  ∧ (completeOne 0 wProcGuest).status = "COMPLETED"
  ∧ (completeOne 0 wProcGuest).refund_completed_at = some 0
  ∧ wProcGuest ∉ (complete_refund 0 oracleBoom [wProcGuest]).rewardsCalls
  ∧ (complete_refund 0 oracleBoom [wProcGuest]).refunds
      = [wProcGuest].map (completeStep 0 oracleBoom) :=
  c5_complete_refund_guest 0 oracleBoom [wProcGuest] wProcGuest
    (by decide) (by decide) (by decide)

/-- C6: `reject_refund` sets status `REJECTED` exactly for the selected
requests not already `COMPLETED` or `REJECTED`; a terminal request is left
unchanged; only the status column is written (all other fields, including
`rejection_reason`, are preserved); no restock, rewards, or restore helper
is invoked; and the reported count is the number of non-terminal selected
requests. -/
theorem c6_reject_refund_effect (qs : List RefundRequest) (i : Nat)
    (r : RefundRequest) (h : qs.get? i = some r) :
    (reject_refund qs).refunds.get? i = some (rejectStep r)
  ∧ ((r.status = "COMPLETED" ∨ r.status = "REJECTED") → rejectStep r = r)
  ∧ (¬ (r.status = "COMPLETED" ∨ r.status = "REJECTED") →
      (rejectStep r).status = "REJECTED")
  ∧ (rejectStep r).id = r.id
  ∧ (rejectStep r).user = r.user
  ∧ (rejectStep r).rewards_used = r.rewards_used
  ∧ (rejectStep r).product_received_at = r.product_received_at
  ∧ (rejectStep r).refund_completed_at = r.refund_completed_at
  ∧ (rejectStep r).rejection_reason = r.rejection_reason
  ∧ (rejectStep r).items = r.items
  ∧ (reject_refund qs).restockCalls = []
  ∧ (reject_refund qs).rewardsCalls = []
  ∧ (reject_refund qs).restoreCalls = []
  ∧ (reject_refund qs).updated
      = (qs.filter fun x => !(x.status == "COMPLETED" || x.status == "REJECTED")).length := by
  obtain ⟨h1, h2, h3, h4, h5, h6, h7⟩ := rejectStep_fields r
  refine ⟨?_, fun ht => by simp [rejectStep, ht],
    fun ht => by simp [rejectStep, ht], h1, h2, h3, h4, h5, h6, h7,
    rfl, rfl, rfl, rfl⟩
  show (qs.map rejectStep).get? i = some (rejectStep r)
  rw [List.get?_map, h]
  rfl

/-- C6 witness: a selection of one `COMPLETED` and one `PROCESSING_REFUND`
request; the `COMPLETED` one (index 0) is left unchanged. -/
theorem c6_reject_refund_effect_witness :
    (reject_refund [wDone, wProc]).refunds.get? 0 = some (rejectStep wDone)
  ∧ ((wDone.status = "COMPLETED" ∨ wDone.status = "REJECTED") → rejectStep wDone = wDone)
  ∧ (¬ (wDone.status = "COMPLETED" ∨ wDone.status = "REJECTED") →
      (rejectStep wDone).status = "REJECTED")
  ∧ (rejectStep wDone).id = wDone.id
  ∧ (rejectStep wDone).user = wDone.user
  ∧ (rejectStep wDone).rewards_used = wDone.rewards_used
  ∧ (rejectStep wDone).product_received_at = wDone.product_received_at
  ∧ (rejectStep wDone).refund_completed_at = wDone.refund_completed_at
  ∧ (rejectStep wDone).rejection_reason = wDone.rejection_reason
  ∧ (rejectStep wDone).items = wDone.items
  ∧ (reject_refund [wDone, wProc]).restockCalls = []
  ∧ (reject_refund [wDone, wProc]).rewardsCalls = []
  ∧ (reject_refund [wDone, wProc]).restoreCalls = []
  ∧ (reject_refund [wDone, wProc]).updated
      = ([wDone, wProc].filter fun x =>
          !(x.status == "COMPLETED" || x.status == "REJECTED")).length :=
  c6_reject_refund_effect [wDone, wProc] 0 wDone (by decide)

/-- C7: the derived product-name column is total: for every refund-item row
it either renders the successfully dereferenced title, or the dereference
raises and it renders an inline string beginning with "Error: " carrying the
exception message, never propagating the exception. -/
theorem c7_product_name_total (obj : RefundItemRow) :
    (∃ t, derefTitle obj = Except.ok t ∧ product_name obj = t)
  ∨ (∃ e, derefTitle obj = Except.error e ∧ product_name obj = "Error: " ++ e) := by
  cases hd : derefTitle obj with
  | ok t => exact Or.inl ⟨t, rfl, by simp [product_name, hd]⟩
  | error e => exact Or.inr ⟨e, rfl, by simp [product_name, hd]⟩

/-- C8: in `mark_product_received`, a selected `PENDING_RETURN` request whose
restock call raises is nevertheless transitioned (status `PRODUCT_RECEIVED`,
items acceptable), the restock error only adds an error message, the request
still counts towards the reported total, and the final success message with
that total is still emitted. -/
theorem c8_mark_received_restock_failure (now : Nat)
    (restockErr : RefundRequest → Option String) (qs : List RefundRequest)
    (r : RefundRequest) (e : String) (hmem : r ∈ qs)
    (hs : r.status = "PENDING_RETURN")
    (he : restockErr (markReceivedOne now r) = some e) :
    markStep now r = markReceivedOne now r
  ∧ (markReceivedOne now r).status = "PRODUCT_RECEIVED"
  ∧ (∀ it ∈ (markReceivedOne now r).items, it.condition_acceptable = true)
  ∧ Msg.restockError r.id e ∈ (mark_product_received now restockErr qs).msgs
  ∧ (mark_product_received now restockErr qs).updated
      = (qs.filter fun x => x.status == "PENDING_RETURN").length
  ∧ (r.status == "PENDING_RETURN") = true
  ∧ Msg.markReceivedSuccess
      ((qs.filter fun x => x.status == "PENDING_RETURN").length)
      ∈ (mark_product_received now restockErr qs).msgs := by
  refine ⟨by simp [markStep, hs], rfl, markReceivedOne_items_acceptable now r, ?_,
    mark_updated_eq now restockErr qs, by simp [hs], ?_⟩
  · rw [mark_msgs_eq]
    exact List.mem_append_left _ (markLoop_msg_mem now restockErr e qs r hmem hs he)
  · rw [mark_msgs_eq, markLoop_updated]
    simp

/-- C8 witness: one selected `PENDING_RETURN` request whose restock helper
always raises. -/
theorem c8_mark_received_restock_failure_witness :
    markStep 0 wPend = markReceivedOne 0 wPend
  ∧ (markReceivedOne 0 wPend).status = "PRODUCT_RECEIVED"
  ∧ (∀ it ∈ (markReceivedOne 0 wPend).items, it.condition_acceptable = true)
  ∧ Msg.restockError wPend.id "boom" ∈ (mark_product_received 0 oracleBoom [wPend]).msgs
  ∧ (mark_product_received 0 oracleBoom [wPend]).updated
      = ([wPend].filter fun x => x.status == "PENDING_RETURN").length
  ∧ (wPend.status == "PENDING_RETURN") = true
  ∧ Msg.markReceivedSuccess
      (([wPend].filter fun x => x.status == "PENDING_RETURN").length)
      ∈ (mark_product_received 0 oracleBoom [wPend]).msgs :=
  c8_mark_received_restock_failure 0 oracleBoom [wPend] wPend "boom"
    (by decide) (by decide) (by decide)

/-- C9: in `restore_rewards_goodwill` the four counters always sum to the
number of selected requests, and the guest counter counts every selected
request without a user, regardless of its `rewards_used` (the guest check
runs before the rewards check). -/
theorem c9_goodwill_partition (restore : RefundRequest → Bool)
    (qs : List RefundRequest) :
    (restore_rewards_goodwill restore qs).restoredCount
    + (restore_rewards_goodwill restore qs).alreadyRestoredCount
    + (restore_rewards_goodwill restore qs).noRewardsCount
    + (restore_rewards_goodwill restore qs).guestCount = qs.length
  ∧ (restore_rewards_goodwill restore qs).guestCount
      = (qs.filter fun r => r.user.isNone).length :=
  ⟨goodwillLoop_counts_sum restore qs, goodwillLoop_guestCount restore qs⟩

/-- C10: `restore_rewards_goodwill` writes no field of any selected request
(the rows come back exactly as selected), and the only helper it invokes is
`restore_used_rewards`, called exactly on the selected requests with a
registered user and positive `rewards_used`, with no status precondition. -/
theorem c10_goodwill_frame (restore : RefundRequest → Bool)
    (qs : List RefundRequest) :
    (restore_rewards_goodwill restore qs).refunds = qs
  ∧ (restore_rewards_goodwill restore qs).restoreCalls
      = qs.filter fun r => r.user.isSome && decide (0 < r.rewards_used) :=
  ⟨rfl, goodwillLoop_restoreCalls restore qs⟩
